import Mathlib

/-!
Shallow embedding of the scoring and recommendation engine of the
Website_audit_tool repository (src/lib/auditor.js and
src/lib/simpleAuditor.js), together with theorems settling the frozen
claims about it.

Numeric modelling conventions:
* JavaScript numbers are modelled as exact rationals (`ℚ`); decimal
  literals such as `0.3` or `0.044` denote the exact decimal fraction.
* `Math.round` is modelled by `jsRound` (round half toward positive
  infinity, i.e. `⌊x + 1/2⌋`), which is the ECMAScript behaviour.
* `Math.max` / `Math.min` are `max` / `min` on `ℤ` or `ℚ`.
* `String.prototype.includes` is modelled by `urlIncludes` (substring
  containment on the character list).
-/

/-- ECMAScript `Math.round`: round half toward positive infinity. -/
def jsRound (x : ℚ) : ℤ := ⌊x + 1/2⌋

/-- Whether `pat` is a prefix of `l` (character lists). -/
def charsHavePre : List Char → List Char → Bool
  | [], _ => true
  | _ :: _, [] => false
  | a :: as, b :: bs => a == b && charsHavePre as bs

/-- Whether `pat` occurs as a contiguous substring of `hay`. -/
def charsHaveSub (hay pat : List Char) : Bool :=
  match hay with
  | [] => pat.isEmpty
  | _ :: t => charsHavePre pat hay || charsHaveSub t pat

/-- JavaScript `url.includes(pat)`: substring containment. -/
def urlIncludes (url pat : String) : Bool :=
  charsHaveSub url.toList pat.toList

/-! ## Performance scorer (src/lib/auditor.js, calculatePerformanceScore) -/

/-- The Core Web Vitals gathered by the browser page evaluation
(auditor.js lines 126-158): LCP and FID in milliseconds, CLS a
dimensionless shift value. -/
structure Vitals where
  lcp : ℚ
  fid : ℚ
  cls : ℚ
  deriving Repr, DecidableEq

/-- Navigation-timing metrics gathered by the browser page evaluation
(auditor.js lines 161-169). -/
structure NavMetrics where
  domContentLoaded : ℚ
  loadComplete : ℚ
  firstPaint : ℚ
  firstContentfulPaint : ℚ
  deriving Repr, DecidableEq

/-- auditor.js lines 431-451, `calculatePerformanceScore(vitals, metrics)`:
sequential penalty subtraction starting from 100, clamped below at 0. -/
def calculatePerformanceScore (v : Vitals) (m : NavMetrics) : ℤ :=
  let s0 : ℤ := 100
  let s1 := if v.lcp > 4000 then s0 - 30 else if v.lcp > 2500 then s0 - 15 else s0
  let s2 := if v.fid > 300 then s1 - 25 else if v.fid > 100 then s1 - 10 else s1
  let s3 := if v.cls > 0.25 then s2 - 20 else if v.cls > 0.1 then s2 - 10 else s2
  let s4 := if m.domContentLoaded > 3000 then s3 - 10 else s3
  let s5 := if m.loadComplete > 5000 then s4 - 10 else s4
  max 0 s5

/-- Spec-side LCP tier penalty: only the single matching tier applies. -/
def lcpTierPenalty (lcp : ℚ) : ℤ :=
  if lcp > 4000 then 30 else if lcp > 2500 then 15 else 0

/-- Spec-side FID tier penalty: only the single matching tier applies. -/
def fidTierPenalty (fid : ℚ) : ℤ :=
  if fid > 300 then 25 else if fid > 100 then 10 else 0

/-- Spec-side CLS tier penalty: only the single matching tier applies. -/
def clsTierPenalty (cls : ℚ) : ℤ :=
  if cls > 0.25 then 20 else if cls > 0.1 then 10 else 0

/-- Spec-side formulation of the performance score: 100 minus one tier
penalty per metric, minus the two flat penalties, clamped below at 0. -/
def performanceScoreSpec (v : Vitals) (m : NavMetrics) : ℤ :=
  max 0 (100 - lcpTierPenalty v.lcp - fidTierPenalty v.fid - clsTierPenalty v.cls
    - (if m.domContentLoaded > 3000 then 10 else 0)
    - (if m.loadComplete > 5000 then 10 else 0))

/-! ## SEO signal bundle (src/lib/simpleAuditor.js, seoChecks shape) -/

/-- The `title` sub-record of seoChecks. -/
structure TitleChecks where
  present : Bool
  content : String
  length : ℕ
  optimal : Bool
  deriving Repr, DecidableEq

/-- The `metaDescription` sub-record of seoChecks. -/
structure MetaDescriptionChecks where
  present : Bool
  content : String
  length : ℕ
  optimal : Bool
  deriving Repr, DecidableEq

/-- The `headings` sub-record of seoChecks. -/
structure HeadingChecks where
  h1 : ℕ
  h2 : ℕ
  h3 : ℕ
  h4 : ℕ
  h5 : ℕ
  h6 : ℕ
  hasH1 : Bool
  multipleH1 : Bool
  deriving Repr, DecidableEq

/-- The `images` sub-record of seoChecks; altTextCoverage is a percentage
(a float in auditor.js, an integer in the canned bundles). -/
structure ImageChecks where
  total : ℕ
  withAlt : ℕ
  withoutAlt : ℕ
  altTextCoverage : ℚ
  deriving Repr, DecidableEq

/-- The `links` sub-record of seoChecks. -/
structure LinkChecks where
  total : ℕ
  internal : ℕ
  external : ℕ
  withTitle : ℕ
  deriving Repr, DecidableEq

/-- The `structuredData` sub-record of seoChecks. -/
structure StructuredDataChecks where
  jsonLd : ℕ
  microdata : ℕ
  rdfa : ℕ
  deriving Repr, DecidableEq

/-- The `robots` sub-record of seoChecks; `robotsTxt` holds the fetched
robots.txt body, or the literal string "Not found" on fetch failure. -/
structure RobotsChecks where
  metaRobots : String
  robotsTxt : String
  deriving Repr, DecidableEq

/-- The `sitemap` sub-record of seoChecks. -/
structure SitemapChecks where
  present : Bool
  url : String
  deriving Repr, DecidableEq

/-- The full seoChecks record built by auditSEO. -/
structure SeoChecks where
  title : TitleChecks
  metaDescription : MetaDescriptionChecks
  headings : HeadingChecks
  images : ImageChecks
  links : LinkChecks
  structuredData : StructuredDataChecks
  robots : RobotsChecks
  sitemap : SitemapChecks
  deriving Repr, DecidableEq

/-- simpleAuditor.js lines 305-337, `calculateSEOScore(seoChecks)`
(the degraded-profile scorer): sequential deductions from baseline 92,
one +5 bonus, then clamp to [0,100]. -/
def calculateSEOScore (c : SeoChecks) : ℤ :=
  let s0 : ℤ := 92
  let s1 := if !c.title.present then s0 - 25
    else if !c.title.optimal then s0 - 10 else s0
  let s2 := if !c.metaDescription.present then s1 - 15
    else if !c.metaDescription.optimal then s1 - 5 else s1
  let s3 := if !c.headings.hasH1 then s2 - 20 else s2
  let s4 := if c.headings.multipleH1 then s3 - 15 else s3
  let s5 := if c.images.altTextCoverage < 80 then s4 - 15 else s4
  let s6 := if c.links.total > 0 && c.links.external > c.links.internal then s5 - 10 else s5
  let s7 := if c.structuredData.jsonLd > 0 then s6 + 5 else s6
  let s8 := if c.robots.robotsTxt == "Not found" then s7 - 5 else s7
  let s9 := if !c.sitemap.present then s8 - 3 else s8
  max 0 (min 100 s9)

/-- Spec-side formulation of the degraded SEO score, with the title and
meta-description length windows written out as in the claim: baseline 92,
indicator deductions, +5 structured-data bonus, clamp to [0,100]. -/
def seoScoreSpec (c : SeoChecks) : ℤ :=
  max 0 (min 100 (92
    - (if c.title.present = false then 25
        else if ¬(30 ≤ c.title.length ∧ c.title.length ≤ 60) then 10 else 0)
    - (if c.metaDescription.present = false then 15
        else if ¬(120 ≤ c.metaDescription.length ∧ c.metaDescription.length ≤ 160) then 5 else 0)
    - (if c.headings.hasH1 = false then 20 else 0)
    - (if c.headings.multipleH1 = true then 15 else 0)
    - (if c.images.altTextCoverage < 80 then 15 else 0)
    - (if 0 < c.links.total ∧ c.links.internal < c.links.external then 10 else 0)
    + (if 0 < c.structuredData.jsonLd then 5 else 0)
    - (if c.robots.robotsTxt = "Not found" then 5 else 0)
    - (if c.sitemap.present = false then 3 else 0)))

/-! ## Degraded-mode signal extractor (src/lib/simpleAuditor.js) -/

/-- URL bucket test for "complex" sites (simpleAuditor.js line 54). -/
def isComplexSite (url : String) : Bool :=
  urlIncludes url "optimizemydata" || urlIncludes url "google" || urlIncludes url "facebook"

/-- URL bucket test for "simple" sites (simpleAuditor.js line 55). -/
def isSimpleSite (url : String) : Bool :=
  urlIncludes url "example.com" || urlIncludes url "github.io"

/-- Core-Web-Vitals block of the mock performance bundle. -/
structure MockCwv where
  lcp : ℚ
  fid : ℚ
  cls : ℚ
  fcp : ℚ
  tbt : ℚ
  si : ℚ
  deriving Repr, DecidableEq

/-- Additional-metrics block of the mock performance bundle. -/
structure MockMetrics where
  domContentLoaded : ℚ
  loadComplete : ℚ
  firstPaint : ℚ
  firstContentfulPaint : ℚ
  largestContentfulPaint : ℚ
  totalBlockingTime : ℚ
  speedIndex : ℚ
  deriving Repr, DecidableEq

/-- The mock performance bundle returned by createMockPerformanceData. -/
structure MockPerformance where
  coreWebVitals : MockCwv
  metrics : MockMetrics
  score : ℤ
  note : String
  deriving Repr, DecidableEq

/-- The seven local values set per URL bucket in createMockPerformanceData
(simpleAuditor.js lines 57-86). -/
structure BucketVals where
  performanceScore : ℤ
  lcp : ℚ
  fid : ℚ
  cls : ℚ
  fcp : ℚ
  tbt : ℚ
  si : ℚ
  deriving Repr, DecidableEq

/-- simpleAuditor.js lines 52-111, `createMockPerformanceData(url)`. -/
def createMockPerformanceData (url : String) : MockPerformance :=
  let b : BucketVals :=
    if isComplexSite url then
      { performanceScore := 86, lcp := 700, fid := 180, cls := 0.044,
        fcp := 600, tbt := 180, si := 4000 }
    else if isSimpleSite url then
      { performanceScore := 95, lcp := 800, fid := 50, cls := 0.02,
        fcp := 400, tbt := 50, si := 1500 }
    else
      { performanceScore := 78, lcp := 1800, fid := 120, cls := 0.05,
        fcp := 800, tbt := 120, si := 2500 }
  { coreWebVitals :=
      { lcp := b.lcp, fid := b.fid, cls := b.cls, fcp := b.fcp,
        tbt := b.tbt, si := b.si },
    metrics :=
      { domContentLoaded := ((jsRound (b.fcp + 200) : ℤ) : ℚ),
        loadComplete := ((jsRound (b.lcp + 300) : ℤ) : ℚ),
        firstPaint := ((jsRound (b.fcp - 50) : ℤ) : ℚ),
        firstContentfulPaint := b.fcp,
        largestContentfulPaint := b.lcp,
        totalBlockingTime := b.tbt,
        speedIndex := b.si },
    score := b.performanceScore,
    note := "Performance data estimated using Google Lighthouse parameters (browser-based audit unavailable)" }

/-- One entry of the mock accessibility issue list. -/
structure A11yIssue where
  type : String
  message : String
  severity : String
  category : String
  count : ℕ
  deriving Repr, DecidableEq

/-- The mock accessibility bundle returned by createMockAccessibilityData. -/
structure MockAccessibility where
  issues : List A11yIssue
  score : ℤ
  totalElements : ℕ
  passedAudits : ℕ
  manualChecks : ℕ
  note : String
  deriving Repr, DecidableEq

/-- simpleAuditor.js lines 113-150, `createMockAccessibilityData()`:
takes no input at all; always the same two canned issues, score folded
down from 98 by per-severity deductions, clamped below at 0. -/
def createMockAccessibilityData : MockAccessibility :=
  let issues : List A11yIssue :=
    [ { type := "warning",
        message := "Heading elements are not in a sequentially-descending order",
        severity := "medium", category := "Navigation", count := 1 },
      { type := "info",
        message := "<video> elements contain a <track> element with [kind=\"captions\"]",
        severity := "low", category := "Audio and video", count := 1 } ]
  let score := issues.foldl
    (fun s i =>
      if i.severity == "high" then s - 10
      else if i.severity == "medium" then s - 5
      else if i.severity == "low" then s - 2
      else s)
    (98 : ℤ)
  { issues := issues, score := max 0 score, totalElements := 150,
    passedAudits := 25, manualChecks := 10,
    note := "Accessibility data estimated using Google Lighthouse parameters (browser-based audit unavailable)" }

/-- Return value of auditSEO: the seoChecks spread together with the
score computed from them (simpleAuditor.js lines 262-265). -/
structure SeoResult where
  checks : SeoChecks
  score : ℤ
  deriving Repr, DecidableEq

/-- The canned seoChecks for the "complex" bucket
(simpleAuditor.js lines 158-208). -/
def complexSeoChecks : SeoChecks :=
  { title :=
      { present := true,
        content := "Optimize My Data - Professional SEO Services",
        length := 45, optimal := true },
    metaDescription :=
      { present := true,
        content := "Professional SEO services to help your business grow online. Expert optimization for better search rankings and increased traffic.",
        length := 125, optimal := true },
    headings :=
      { h1 := 1, h2 := 3, h3 := 5, h4 := 2, h5 := 0, h6 := 0,
        hasH1 := true, multipleH1 := false },
    images := { total := 8, withAlt := 6, withoutAlt := 2, altTextCoverage := 75 },
    links := { total := 15, internal := 8, external := 7, withTitle := 3 },
    structuredData := { jsonLd := 1, microdata := 0, rdfa := 0 },
    robots := { metaRobots := "index, follow", robotsTxt := "Not found" },
    sitemap := { present := false, url := "" } }

/-- The canned seoChecks for the default bucket
(simpleAuditor.js lines 209-260). -/
def defaultSeoChecks : SeoChecks :=
  { title :=
      { present := true, content := "Website Title",
        length := 15, optimal := false },
    metaDescription :=
      { present := true, content := "Website description",
        length := 20, optimal := false },
    headings :=
      { h1 := 1, h2 := 2, h3 := 3, h4 := 1, h5 := 0, h6 := 0,
        hasH1 := true, multipleH1 := false },
    images := { total := 5, withAlt := 4, withoutAlt := 1, altTextCoverage := 80 },
    links := { total := 10, internal := 6, external := 4, withTitle := 2 },
    structuredData := { jsonLd := 0, microdata := 0, rdfa := 0 },
    robots := { metaRobots := "index, follow", robotsTxt := "Not found" },
    sitemap := { present := false, url := "" } }

/-- simpleAuditor.js lines 152-266, `auditSEO(url)` (degraded mode:
canned data selected by URL bucket, no fetching). -/
def auditSEO (url : String) : SeoResult :=
  let seoChecks := if isComplexSite url then complexSeoChecks else defaultSeoChecks
  { checks := seoChecks, score := calculateSEOScore seoChecks }

/-- One entry of the mock crawlability issue list. -/
structure CrawlIssue where
  type : String
  message : String
  severity : String
  deriving Repr, DecidableEq

/-- The mock crawlability bundle returned by auditCrawlability. -/
structure CrawlResult where
  issues : List CrawlIssue
  score : ℤ
  url : String
  hasContent : Bool
  scriptCount : ℕ
  deriving Repr, DecidableEq

/-- simpleAuditor.js lines 268-303, `auditCrawlability(url)` (degraded
mode: canned issues/score selected by URL bucket). -/
def auditCrawlability (url : String) : CrawlResult :=
  if isComplexSite url then
    { issues :=
        [ { type := "warning", message := "Links are not crawlable",
            severity := "medium" } ],
      score := 85, url := url, hasContent := true, scriptCount := 5 }
  else
    { issues :=
        [ { type := "warning", message := "Missing viewport meta tag",
            severity := "medium" } ],
      score := 90, url := url, hasContent := true, scriptCount := 5 }

/-! ## Aggregator (calculateOverallScore, identical in auditor.js lines
477-496 and simpleAuditor.js lines 339-358) -/

/-- The four category slots of an audit result as seen by the
aggregator: `some q` when the slot holds an object whose `score` field
is a JavaScript number `q`, `none` otherwise.  Note that the error path
of each category audit (for example auditor.js line 180) returns
`{ error: message, score: 0 }`, whose score field IS the number 0. -/
structure ScoreCells where
  performance : Option ℚ
  seo : Option ℚ
  accessibility : Option ℚ
  crawlability : Option ℚ
  deriving Repr, DecidableEq

/-- The category slot produced by the catch branch of auditPerformance
(auditor.js lines 178-181): `{ error: error.message, score: 0 }` — an
error marker together with a numeric score of 0. -/
def erroredCategoryCell : Option ℚ := some 0

/-- `calculateOverallScore(results)`: iterate the weight table in
insertion order (performance 0.3, seo 0.3, accessibility 0.2,
crawlability 0.2), accumulating score×weight and weight for every slot
whose score field is a number, then round the quotient (0 if the
accumulated weight is 0). -/
def calculateOverallScore (r : ScoreCells) : ℤ :=
  let cells : List (Option ℚ × ℚ) :=
    [(r.performance, 0.3), (r.seo, 0.3), (r.accessibility, 0.2), (r.crawlability, 0.2)]
  let acc := cells.foldl
    (fun acc cw =>
      match cw.1 with
      | some s => (acc.1 + s * cw.2, acc.2 + cw.2)
      | none => acc)
    ((0 : ℚ), (0 : ℚ))
  if acc.2 > 0 then jsRound (acc.1 / acc.2) else 0

/-- Spec-side numerator contribution of one category slot. -/
def cellTerm (o : Option ℚ) (w : ℚ) : ℚ :=
  match o with
  | some s => s * w
  | none => 0

/-- Spec-side denominator contribution of one category slot. -/
def cellWeight (o : Option ℚ) (w : ℚ) : ℚ :=
  match o with
  | some _ => w
  | none => 0

/-- Spec-side formulation of the overall score: round of the weighted
sum over the slots with a numeric score divided by the sum of those
weights, and 0 when no slot has a numeric score. -/
def overallScoreSpec (r : ScoreCells) : ℤ :=
  let num := cellTerm r.performance 0.3 + cellTerm r.seo 0.3
    + cellTerm r.accessibility 0.2 + cellTerm r.crawlability 0.2
  let den := cellWeight r.performance 0.3 + cellWeight r.seo 0.3
    + cellWeight r.accessibility 0.2 + cellWeight r.crawlability 0.2
  if den > 0 then jsRound (num / den) else 0

/-! ## Recommendation generator (generateRecommendations, identical in
auditor.js lines 498-552 and simpleAuditor.js lines 360-414) -/

/-- One recommendation entry. -/
structure Recommendation where
  category : String
  priority : String
  message : String
  details : String
  deriving Repr, DecidableEq

/-- The audit results record assembled by auditWebsite
(simpleAuditor.js lines 14-23 and 31-42). -/
structure AuditResults where
  url : String
  performance : MockPerformance
  seo : SeoResult
  accessibility : MockAccessibility
  crawlability : CrawlResult
  overallScore : ℤ
  recommendations : List Recommendation
  deriving Repr, DecidableEq

/-- The performance recommendation (simpleAuditor.js lines 365-370). -/
def perfRecommendation : Recommendation :=
  { category := "Performance", priority := "high",
    message := "Improve Core Web Vitals - focus on LCP, FID, and CLS",
    details := "Consider optimizing images, reducing JavaScript execution time, and minimizing layout shifts" }

/-- The missing-title SEO recommendation (simpleAuditor.js lines 376-381). -/
def seoTitleRecommendation : Recommendation :=
  { category := "SEO", priority := "high",
    message := "Add a title tag to your page",
    details := "Title tags are crucial for SEO and should be 30-60 characters long" }

/-- The missing-meta-description SEO recommendation
(simpleAuditor.js lines 384-389). -/
def seoMetaRecommendation : Recommendation :=
  { category := "SEO", priority := "medium",
    message := "Add a meta description",
    details := "Meta descriptions should be 120-160 characters and describe your page content" }

/-- The accessibility recommendation (simpleAuditor.js lines 395-400). -/
def a11yRecommendation : Recommendation :=
  { category := "Accessibility", priority := "high",
    message := "Improve accessibility compliance",
    details := "Focus on alt text for images, proper heading structure, and form labels" }

/-- The crawlability recommendation (simpleAuditor.js lines 405-410). -/
def crawlRecommendation : Recommendation :=
  { category := "Crawlability", priority := "medium",
    message := "Improve page crawlability",
    details := "Ensure content is accessible without JavaScript and add proper meta tags" }

/-- simpleAuditor.js lines 360-414, `generateRecommendations(results)`:
sequential pushes onto an initially empty array, in category order
performance, SEO (title then meta description, both guarded by the SEO
score), accessibility, crawlability. -/
def generateRecommendations (r : AuditResults) : List Recommendation :=
  let recs : List Recommendation := []
  let recs := if r.performance.score < 70 then recs ++ [perfRecommendation] else recs
  let recs :=
    if r.seo.score < 70 then
      let recs := if !r.seo.checks.title.present then recs ++ [seoTitleRecommendation] else recs
      if !r.seo.checks.metaDescription.present then recs ++ [seoMetaRecommendation] else recs
    else recs
  let recs := if r.accessibility.score < 70 then recs ++ [a11yRecommendation] else recs
  if r.crawlability.score < 70 then recs ++ [crawlRecommendation] else recs

/-- Spec-side formulation of the recommendation list: one conditional
singleton per rule, concatenated in the fixed category order. -/
def recommendationsSpec (r : AuditResults) : List Recommendation :=
  (if r.performance.score < 70 then [perfRecommendation] else [])
    ++ (if r.seo.score < 70 ∧ r.seo.checks.title.present = false
        then [seoTitleRecommendation] else [])
    ++ (if r.seo.score < 70 ∧ r.seo.checks.metaDescription.present = false
        then [seoMetaRecommendation] else [])
    ++ (if r.accessibility.score < 70 then [a11yRecommendation] else [])
    ++ (if r.crawlability.score < 70 then [crawlRecommendation] else [])

/-- Number of recommendations carrying a given category label. -/
def countFor (cat : String) (recs : List Recommendation) : ℕ :=
  (recs.filter (fun x => x.category == cat)).length

/-! ## The degraded audit pipeline (simpleAuditor.js, auditWebsite) -/

/-- simpleAuditor.js lines 10-50, `auditWebsite(url)`: assemble SEO,
crawlability, mock performance and mock accessibility bundles, then the
overall score, then the recommendations.  All four score fields are
numbers here, so every aggregator slot is `some`. -/
def simpleAuditWebsite (url : String) : AuditResults :=
  let base : AuditResults :=
    { url := url,
      performance := createMockPerformanceData url,
      seo := auditSEO url,
      accessibility := createMockAccessibilityData,
      crawlability := auditCrawlability url,
      overallScore := 0,
      recommendations := [] }
  let cells : ScoreCells :=
    { performance := some ((base.performance.score : ℚ)),
      seo := some ((base.seo.score : ℚ)),
      accessibility := some ((base.accessibility.score : ℚ)),
      crawlability := some ((base.crawlability.score : ℚ)) }
  let withScore := { base with overallScore := calculateOverallScore cells }
  { withScore with recommendations := generateRecommendations withScore }

/-! ## Canned bundle literals (spec side, for the bucketing claim) -/

/-- The fully evaluated canned performance bundle of the "complex" bucket. -/
def complexPerfBundle : MockPerformance :=
  { coreWebVitals :=
      { lcp := 700, fid := 180, cls := 0.044, fcp := 600, tbt := 180, si := 4000 },
    metrics :=
      { domContentLoaded := 800, loadComplete := 1000, firstPaint := 550,
        firstContentfulPaint := 600, largestContentfulPaint := 700,
        totalBlockingTime := 180, speedIndex := 4000 },
    score := 86,
    note := "Performance data estimated using Google Lighthouse parameters (browser-based audit unavailable)" }

/-- The fully evaluated canned performance bundle of the "simple" bucket. -/
def simplePerfBundle : MockPerformance :=
  { coreWebVitals :=
      { lcp := 800, fid := 50, cls := 0.02, fcp := 400, tbt := 50, si := 1500 },
    metrics :=
      { domContentLoaded := 600, loadComplete := 1100, firstPaint := 350,
        firstContentfulPaint := 400, largestContentfulPaint := 800,
        totalBlockingTime := 50, speedIndex := 1500 },
    score := 95,
    note := "Performance data estimated using Google Lighthouse parameters (browser-based audit unavailable)" }

/-- The fully evaluated canned performance bundle of the default bucket. -/
def defaultPerfBundle : MockPerformance :=
  { coreWebVitals :=
      { lcp := 1800, fid := 120, cls := 0.05, fcp := 800, tbt := 120, si := 2500 },
    metrics :=
      { domContentLoaded := 1000, loadComplete := 2100, firstPaint := 750,
        firstContentfulPaint := 800, largestContentfulPaint := 1800,
        totalBlockingTime := 120, speedIndex := 2500 },
    score := 78,
    note := "Performance data estimated using Google Lighthouse parameters (browser-based audit unavailable)" }

/-- The fully evaluated canned accessibility bundle (URL-independent). -/
def mockA11yBundle : MockAccessibility :=
  { issues :=
      [ { type := "warning",
          message := "Heading elements are not in a sequentially-descending order",
          severity := "medium", category := "Navigation", count := 1 },
        { type := "info",
          message := "<video> elements contain a <track> element with [kind=\"captions\"]",
          severity := "low", category := "Audio and video", count := 1 } ],
    score := 91, totalElements := 150, passedAudits := 25, manualChecks := 10,
    note := "Accessibility data estimated using Google Lighthouse parameters (browser-based audit unavailable)" }

/-- A signal bundle realising the SEO scenario of the claim: title
absent, meta description absent, no H1, alt coverage below 80%, and no
other deduction or bonus firing (single H1 block absent, internal links
dominate, no structured data, robots.txt found, sitemap present). -/
def seoScenarioChecks : SeoChecks :=
  { title := { present := false, content := "", length := 0, optimal := false },
    metaDescription := { present := false, content := "", length := 0, optimal := false },
    headings :=
      { h1 := 0, h2 := 2, h3 := 3, h4 := 1, h5 := 0, h6 := 0,
        hasH1 := false, multipleH1 := false },
    images := { total := 5, withAlt := 3, withoutAlt := 2, altTextCoverage := 60 },
    links := { total := 10, internal := 6, external := 4, withTitle := 2 },
    structuredData := { jsonLd := 0, microdata := 0, rdfa := 0 },
    robots := { metaRobots := "index, follow", robotsTxt := "User-agent: *" },
    sitemap := { present := true, url := "/sitemap.xml" } }

/-- An audit result whose SEO category passes the threshold (score 80)
while its canned title and meta description are both present. -/
def passingSeoResults : AuditResults :=
  { url := "https://example.com",
    performance := createMockPerformanceData "https://example.com",
    seo := { checks := defaultSeoChecks, score := 80 },
    accessibility := createMockAccessibilityData,
    crawlability := auditCrawlability "https://example.com",
    overallScore := 0,
    recommendations := [] }

/-! ## Supporting lemmas -/

lemma lcpStep (s : ℤ) (x : ℚ) :
    (if x > 4000 then s - 30 else if x > 2500 then s - 15 else s)
      = s - lcpTierPenalty x := by
  unfold lcpTierPenalty; split_ifs <;> ring

lemma fidStep (s : ℤ) (x : ℚ) :
    (if x > 300 then s - 25 else if x > 100 then s - 10 else s)
      = s - fidTierPenalty x := by
  unfold fidTierPenalty; split_ifs <;> ring

lemma clsStep (s : ℤ) (x : ℚ) :
    (if x > 0.25 then s - 20 else if x > 0.1 then s - 10 else s)
      = s - clsTierPenalty x := by
  unfold clsTierPenalty; split_ifs <;> ring

lemma flatStep (s : ℤ) (c : Prop) [Decidable c] :
    (if c then s - 10 else s) = s - (if c then 10 else 0) := by
  split_ifs <;> ring

lemma calculatePerformanceScore_eq_spec (v : Vitals) (m : NavMetrics) :
    calculatePerformanceScore v m = performanceScoreSpec v m := by
  simp only [calculatePerformanceScore, performanceScoreSpec]
  rw [lcpStep, fidStep, clsStep, flatStep, flatStep]

lemma lcpTierPenalty_nonneg (x : ℚ) : 0 ≤ lcpTierPenalty x := by
  unfold lcpTierPenalty; split_ifs <;> norm_num

lemma fidTierPenalty_nonneg (x : ℚ) : 0 ≤ fidTierPenalty x := by
  unfold fidTierPenalty; split_ifs <;> norm_num

lemma clsTierPenalty_nonneg (x : ℚ) : 0 ≤ clsTierPenalty x := by
  unfold clsTierPenalty; split_ifs <;> norm_num

lemma calculatePerformanceScore_bounds (v : Vitals) (m : NavMetrics) :
    0 ≤ calculatePerformanceScore v m ∧ calculatePerformanceScore v m ≤ 100 := by
  rw [calculatePerformanceScore_eq_spec]
  unfold performanceScoreSpec
  have hl := lcpTierPenalty_nonneg v.lcp
  have hf := fidTierPenalty_nonneg v.fid
  have hc := clsTierPenalty_nonneg v.cls
  have hd : (0 : ℤ) ≤ (if m.domContentLoaded > 3000 then 10 else 0) := by
    split_ifs <;> norm_num
  have he : (0 : ℤ) ≤ (if m.loadComplete > 5000 then 10 else 0) := by
    split_ifs <;> norm_num
  constructor
  · exact le_max_left 0 _
  · exact max_le (by norm_num) (by linarith)

lemma deductStep (s a : ℤ) (c : Prop) [Decidable c] :
    (if c then s - a else s) = s - (if c then a else 0) := by
  split_ifs <;> ring

lemma bonusStep (s a : ℤ) (c : Prop) [Decidable c] :
    (if c then s + a else s) = s + (if c then a else 0) := by
  split_ifs <;> ring

lemma twoTierStep (s a b : ℤ) (p q : Prop) [Decidable p] [Decidable q] :
    (if p then s - a else s - (if q then b else 0))
      = s - (if p then a else if q then b else 0) := by
  split_ifs <;> ring

lemma calculateSEOScore_eq_spec (c : SeoChecks)
    (h1 : c.title.optimal
      = decide (30 ≤ c.title.length ∧ c.title.length ≤ 60))
    (h2 : c.metaDescription.optimal
      = decide (120 ≤ c.metaDescription.length ∧ c.metaDescription.length ≤ 160)) :
    calculateSEOScore c = seoScoreSpec c := by
  simp only [calculateSEOScore, seoScoreSpec, h1, h2, deductStep, bonusStep,
    twoTierStep, Bool.not_eq_true', Bool.and_eq_true, decide_eq_true_eq,
    decide_eq_false_iff_not, beq_iff_eq, gt_iff_lt]

lemma clampBoth (s : ℤ) : 0 ≤ max 0 (min 100 s) ∧ max 0 (min 100 s) ≤ 100 := by
  omega

lemma calculateSEOScore_bounds (c : SeoChecks) :
    0 ≤ calculateSEOScore c ∧ calculateSEOScore c ≤ 100 := by
  simp only [calculateSEOScore]
  exact clampBoth _

lemma calculateOverallScore_eq_spec (r : ScoreCells) :
    calculateOverallScore r = overallScoreSpec r := by
  rcases r with ⟨p, s, a, w⟩
  rcases p with _ | p <;> rcases s with _ | s <;> rcases a with _ | a <;>
    rcases w with _ | w <;>
    norm_num [calculateOverallScore, overallScoreSpec, cellTerm, cellWeight]

lemma generateRecommendations_eq_spec (r : AuditResults) :
    generateRecommendations r = recommendationsSpec r := by
  simp only [generateRecommendations, recommendationsSpec, Bool.not_eq_true']
  by_cases hp : r.performance.score < 70 <;>
    by_cases hs : r.seo.score < 70 <;>
    by_cases ht : r.seo.checks.title.present = false <;>
    by_cases hm : r.seo.checks.metaDescription.present = false <;>
    by_cases ha : r.accessibility.score < 70 <;>
    by_cases hc : r.crawlability.score < 70 <;>
    simp [hp, hs, ht, hm, ha, hc]

lemma filter_ite (p : Recommendation → Bool) (c : Prop) [Decidable c]
    (a b : List Recommendation) :
    List.filter p (if c then a else b)
      = if c then List.filter p a else List.filter p b := by
  split_ifs <;> rfl

lemma length_ite (c : Prop) [Decidable c] (a b : List Recommendation) :
    (if c then a else b).length = if c then a.length else b.length := by
  split_ifs <;> rfl

lemma countFor_gen_perf (r : AuditResults) :
    countFor "Performance" (generateRecommendations r)
      = if r.performance.score < 70 then 1 else 0 := by
  rw [generateRecommendations_eq_spec]
  simp [recommendationsSpec, countFor, List.filter_append, filter_ite, length_ite,
    perfRecommendation, seoTitleRecommendation, seoMetaRecommendation,
    a11yRecommendation, crawlRecommendation]

lemma countFor_gen_seo (r : AuditResults) :
    countFor "SEO" (generateRecommendations r)
      = if r.seo.score < 70 then
          (if r.seo.checks.title.present then 0 else 1)
            + (if r.seo.checks.metaDescription.present then 0 else 1)
        else 0 := by
  rw [generateRecommendations_eq_spec]
  simp only [recommendationsSpec, countFor, List.filter_append, filter_ite,
    List.length_append, length_ite]
  by_cases hs : r.seo.score < 70 <;>
    by_cases ht : r.seo.checks.title.present <;>
    by_cases hm : r.seo.checks.metaDescription.present <;>
    simp [hs, ht, hm, perfRecommendation, seoTitleRecommendation,
      seoMetaRecommendation, a11yRecommendation, crawlRecommendation]

lemma countFor_gen_a11y (r : AuditResults) :
    countFor "Accessibility" (generateRecommendations r)
      = if r.accessibility.score < 70 then 1 else 0 := by
  rw [generateRecommendations_eq_spec]
  simp [recommendationsSpec, countFor, List.filter_append, filter_ite, length_ite,
    perfRecommendation, seoTitleRecommendation, seoMetaRecommendation,
    a11yRecommendation, crawlRecommendation]

lemma countFor_gen_crawl (r : AuditResults) :
    countFor "Crawlability" (generateRecommendations r)
      = if r.crawlability.score < 70 then 1 else 0 := by
  rw [generateRecommendations_eq_spec]
  simp [recommendationsSpec, countFor, List.filter_append, filter_ite, length_ite,
    perfRecommendation, seoTitleRecommendation, seoMetaRecommendation,
    a11yRecommendation, crawlRecommendation]

/-! ## Claim theorems -/

/-- C1 counterexample: a result whose performance extraction errored
(auditor.js line 180 returns `{ error, score: 0 }`) with the other three
categories scoring 90 is aggregated to 63 — the errored category is
counted as a zero with its full 0.3 weight — whereas excluding it from
numerator and denominator, as the claim states, would give 90. -/
theorem errored_category_drags_average_ce :
    calculateOverallScore
      { performance := erroredCategoryCell, seo := some 90,
        accessibility := some 90, crawlability := some 90 } = 63
    ∧ jsRound (((90 : ℚ) * 0.3 + 90 * 0.2 + 90 * 0.2) / (0.3 + 0.2 + 0.2)) = 90
    ∧ (63 : ℤ) ≠ 90 := by
  refine ⟨?_, ?_, by decide⟩
  · norm_num [calculateOverallScore, erroredCategoryCell, jsRound]
  · norm_num [jsRound]

/-- C1 (amended): calculateOverallScore includes exactly the categories
whose score field is numeric, in both numerator and denominator; a
category whose extraction errored carries the numeric score 0, so it is
included with its full weight and does drag the weighted average down —
only a category without a numeric score field is excluded. -/
theorem overall_score_includes_errored_as_zero :
    (∀ r : ScoreCells, calculateOverallScore r = overallScoreSpec r)
    ∧ erroredCategoryCell = some 0 :=
  ⟨calculateOverallScore_eq_spec, rfl⟩

/-- C2: calculateOverallScore equals the rounded weight-renormalised
average of the slots holding a numeric score (weights 0.3, 0.3, 0.2,
0.2), is 0 when no slot has a numeric score, maps {90,80,70,60} to 77,
and maps {90,80,_,60} (accessibility absent) to round(63/0.8) = 79. -/
theorem calculateOverallScore_weighted_formula :
    (∀ r : ScoreCells, calculateOverallScore r = overallScoreSpec r)
    ∧ calculateOverallScore
        { performance := some 90, seo := some 80,
          accessibility := some 70, crawlability := some 60 } = 77
    ∧ calculateOverallScore
        { performance := some 90, seo := some 80,
          accessibility := none, crawlability := some 60 } = 79
    ∧ jsRound ((63 : ℚ) / 0.8) = 79
    ∧ calculateOverallScore
        { performance := none, seo := none,
          accessibility := none, crawlability := none } = 0 := by
  refine ⟨calculateOverallScore_eq_spec, ?_, ?_, ?_, ?_⟩ <;>
    norm_num [calculateOverallScore, jsRound]

/-- C3 counterexample: lowering the SEO score of `passingSeoResults`
from 80 (≥ 70) to 60 (< 70), all other fields fixed, leaves the number
of SEO recommendations unchanged at 0, because the canned title and
meta description are both present — the count does not strictly
increase. -/
theorem seo_rec_count_not_strict_ce :
    (70 : ℤ) ≤ passingSeoResults.seo.score
    ∧ ({ passingSeoResults with
          seo := { passingSeoResults.seo with score := 60 } } : AuditResults).seo.score < 70
    ∧ countFor "SEO" (generateRecommendations
        { passingSeoResults with
          seo := { passingSeoResults.seo with score := 60 } })
        = countFor "SEO" (generateRecommendations passingSeoResults) := by
  refine ⟨by decide, by decide, by decide⟩

/-- C3 (amended): lowering a category score from ≥ 70 to < 70 with all
other fields fixed never decreases that category's recommendation
count; it strictly increases it for performance, accessibility and
crawlability, and for SEO it strictly increases exactly when the title
or the meta description is absent (with both present the count stays
0). -/
theorem rec_count_monotone_amended (r : AuditResults) (s : ℤ) (hs : s < 70) :
    (70 ≤ r.performance.score →
      countFor "Performance" (generateRecommendations r)
        < countFor "Performance" (generateRecommendations
            { r with performance := { r.performance with score := s } }))
    ∧ (70 ≤ r.accessibility.score →
      countFor "Accessibility" (generateRecommendations r)
        < countFor "Accessibility" (generateRecommendations
            { r with accessibility := { r.accessibility with score := s } }))
    ∧ (70 ≤ r.crawlability.score →
      countFor "Crawlability" (generateRecommendations r)
        < countFor "Crawlability" (generateRecommendations
            { r with crawlability := { r.crawlability with score := s } }))
    ∧ (70 ≤ r.seo.score →
      countFor "SEO" (generateRecommendations r)
        ≤ countFor "SEO" (generateRecommendations
            { r with seo := { r.seo with score := s } })
      ∧ (countFor "SEO" (generateRecommendations r)
          < countFor "SEO" (generateRecommendations
              { r with seo := { r.seo with score := s } })
        ↔ r.seo.checks.title.present = false
            ∨ r.seo.checks.metaDescription.present = false)) := by
  refine ⟨?_, ?_, ?_, ?_⟩
  · intro h
    rw [countFor_gen_perf, countFor_gen_perf]
    simp only
    rw [if_neg (by omega), if_pos hs]
    decide
  · intro h
    rw [countFor_gen_a11y, countFor_gen_a11y]
    simp only
    rw [if_neg (by omega), if_pos hs]
    decide
  · intro h
    rw [countFor_gen_crawl, countFor_gen_crawl]
    simp only
    rw [if_neg (by omega), if_pos hs]
    decide
  · intro h
    rw [countFor_gen_seo, countFor_gen_seo]
    simp only
    rw [if_neg (by omega), if_pos hs]
    constructor
    · exact Nat.zero_le _
    · cases ht : r.seo.checks.title.present <;>
        cases hm : r.seo.checks.metaDescription.present <;> simp

/-- C3 amended, witnessed at `passingSeoResults` with the SEO score
lowered to 60: the count stays at 0 and the strictness criterion is
false because title and meta description are present. -/
theorem rec_count_monotone_amended_witness :
    countFor "SEO" (generateRecommendations passingSeoResults)
      ≤ countFor "SEO" (generateRecommendations
          { passingSeoResults with
            seo := { passingSeoResults.seo with score := 60 } })
    ∧ (countFor "SEO" (generateRecommendations passingSeoResults)
        < countFor "SEO" (generateRecommendations
            { passingSeoResults with
              seo := { passingSeoResults.seo with score := 60 } })
      ↔ passingSeoResults.seo.checks.title.present = false
          ∨ passingSeoResults.seo.checks.metaDescription.present = false) :=
  (rec_count_monotone_amended passingSeoResults 60 (by decide)).2.2.2 (by decide)

/-- C4: under the correspondence the canned bundles satisfy (the
`optimal` flags encode the title length window [30,60] and the meta
description window [120,160]), the degraded SEO scorer equals the
claimed formula — baseline 92; −25 absent title else −10 non-optimal
length; −15 absent meta description else −5 non-optimal length; −20 no
H1; −15 multiple H1s; −15 alt coverage < 80%; −10 when the page has
links and external exceed internal; +5 for JSON-LD; −5 robots.txt not
found; −3 no sitemap; clamped to [0,100] — and on the scenario bundle
(title absent, meta description absent, no H1, alt coverage < 80%,
nothing else firing) the score is 92−25−15−20−15 = 17. -/
theorem calculateSEOScore_degraded_formula :
    (∀ c : SeoChecks,
      c.title.optimal = decide (30 ≤ c.title.length ∧ c.title.length ≤ 60) →
      c.metaDescription.optimal
          = decide (120 ≤ c.metaDescription.length ∧ c.metaDescription.length ≤ 160) →
      calculateSEOScore c = seoScoreSpec c)
    ∧ calculateSEOScore seoScenarioChecks = 17 := by
  refine ⟨fun c h1 h2 => calculateSEOScore_eq_spec c h1 h2, by decide⟩

/-- C4, witnessed on the scenario bundle: its optimal flags satisfy the
length-window correspondence, and the scorer agrees with the formula
there. -/
theorem calculateSEOScore_degraded_formula_witness :
    calculateSEOScore seoScenarioChecks = seoScoreSpec seoScenarioChecks :=
  calculateSEOScore_degraded_formula.1 seoScenarioChecks (by decide) (by decide)

/-- C5: the performance scorer equals 100 minus one single tier penalty
per metric (LCP −30 above 4000 else −15 above 2500; FID −25 above 300
else −10 above 100; CLS −20 above 0.25 else −10 above 0.1) minus the
two flat −10 penalties (domContentLoaded > 3000, loadComplete > 5000),
clamped below at 0 — so tier penalties within one metric never
accumulate. -/
theorem calculatePerformanceScore_single_tier :
    ∀ (v : Vitals) (m : NavMetrics),
      calculatePerformanceScore v m = performanceScoreSpec v m :=
  calculatePerformanceScore_eq_spec

/-- C6: the recommendation list is exactly the concatenation, in the
fixed order performance, SEO-title, SEO-meta, accessibility,
crawlability, of the conditional singleton recommendations; the
per-category counts are 1 below the 70 threshold and 0 otherwise
(for SEO: one high title recommendation iff the title is absent and one
medium meta recommendation iff the meta description is absent, only
when the SEO score is below 70); and the list is empty when every
category scores at least 70. -/
theorem generateRecommendations_rules :
    ∀ r : AuditResults,
      generateRecommendations r = recommendationsSpec r
      ∧ countFor "Performance" (generateRecommendations r)
          = (if r.performance.score < 70 then 1 else 0)
      ∧ countFor "SEO" (generateRecommendations r)
          = (if r.seo.score < 70 then
              (if r.seo.checks.title.present then 0 else 1)
                + (if r.seo.checks.metaDescription.present then 0 else 1)
            else 0)
      ∧ countFor "Accessibility" (generateRecommendations r)
          = (if r.accessibility.score < 70 then 1 else 0)
      ∧ countFor "Crawlability" (generateRecommendations r)
          = (if r.crawlability.score < 70 then 1 else 0)
      ∧ (70 ≤ r.performance.score → 70 ≤ r.seo.score →
          70 ≤ r.accessibility.score → 70 ≤ r.crawlability.score →
          generateRecommendations r = []) := by
  intro r
  refine ⟨generateRecommendations_eq_spec r, countFor_gen_perf r,
    countFor_gen_seo r, countFor_gen_a11y r, countFor_gen_crawl r, ?_⟩
  intro h1 h2 h3 h4
  rw [generateRecommendations_eq_spec]
  unfold recommendationsSpec
  rw [if_neg (by omega), if_neg (by rintro ⟨h, -⟩; omega),
    if_neg (by rintro ⟨h, -⟩; omega), if_neg (by omega), if_neg (by omega)]
  rfl

/-- C6, witnessed on the degraded audit of a complex-bucket URL, whose
four category scores (86, 74, 91, 85) all pass the threshold: the
recommendation list is empty. -/
theorem generateRecommendations_rules_witness :
    generateRecommendations (simpleAuditWebsite "https://optimizemydata.com") = [] :=
  (generateRecommendations_rules (simpleAuditWebsite "https://optimizemydata.com")).2.2.2.2.2
    (by decide) (by decide) (by decide) (by decide)

/-- C7: every category scorer stays within [0,100] at both ends — the
full-mode performance scorer for all vitals and metrics, the degraded
SEO scorer for all signal bundles (and hence auditSEO for every URL),
and the degraded performance, accessibility and crawlability bundle
scores for every URL. -/
theorem category_scores_in_range :
    (∀ (v : Vitals) (m : NavMetrics),
      0 ≤ calculatePerformanceScore v m ∧ calculatePerformanceScore v m ≤ 100)
    ∧ (∀ c : SeoChecks, 0 ≤ calculateSEOScore c ∧ calculateSEOScore c ≤ 100)
    ∧ (∀ url : String,
        0 ≤ (createMockPerformanceData url).score
        ∧ (createMockPerformanceData url).score ≤ 100)
    ∧ (0 ≤ createMockAccessibilityData.score ∧ createMockAccessibilityData.score ≤ 100)
    ∧ (∀ url : String,
        0 ≤ (auditCrawlability url).score ∧ (auditCrawlability url).score ≤ 100)
    ∧ (∀ url : String, 0 ≤ (auditSEO url).score ∧ (auditSEO url).score ≤ 100) := by
  refine ⟨calculatePerformanceScore_bounds, calculateSEOScore_bounds, ?_, by decide, ?_, ?_⟩
  · intro url
    by_cases hc : isComplexSite url = true <;>
      by_cases hs : isSimpleSite url = true <;>
      simp [createMockPerformanceData, hc, hs]
  · intro url
    by_cases hc : isComplexSite url = true <;> simp [auditCrawlability, hc]
  · intro url
    simp only [auditSEO]
    exact calculateSEOScore_bounds _

/-- C8: the degraded extractor classifies every URL into exactly three
buckets by substring matching — complex (optimizemydata/google/
facebook), simple (example.com/github.io, tested only after complex),
default — each mapped to one fixed canned performance bundle; the
accessibility bundle is one fixed canned bundle for every URL; and both
carry the note field flagging estimated, non-live data. -/
theorem mock_bundles_bucketed :
    ∀ url : String,
      createMockPerformanceData url
        = (if isComplexSite url then complexPerfBundle
           else if isSimpleSite url then simplePerfBundle else defaultPerfBundle)
      ∧ isComplexSite url
          = (urlIncludes url "optimizemydata" || urlIncludes url "google"
              || urlIncludes url "facebook")
      ∧ isSimpleSite url
          = (urlIncludes url "example.com" || urlIncludes url "github.io")
      ∧ (createMockPerformanceData url).note
          = "Performance data estimated using Google Lighthouse parameters (browser-based audit unavailable)"
      ∧ createMockAccessibilityData = mockA11yBundle
      ∧ createMockAccessibilityData.note
          = "Accessibility data estimated using Google Lighthouse parameters (browser-based audit unavailable)" := by
  intro url
  have hb : createMockPerformanceData url
      = (if isComplexSite url then complexPerfBundle
         else if isSimpleSite url then simplePerfBundle else defaultPerfBundle) := by
    by_cases hc : isComplexSite url = true <;>
      by_cases hs : isSimpleSite url = true <;>
      norm_num [createMockPerformanceData, hc, hs, complexPerfBundle,
        simplePerfBundle, defaultPerfBundle, jsRound]
  refine ⟨hb, rfl, rfl, ?_, by decide, rfl⟩
  rw [hb]
  split_ifs <;> rfl

/-- C9: the degraded-mode signal extractor is deterministic — equal
input URLs give equal mock performance bundles, SEO results and
crawlability results, and the accessibility bundle takes no input at
all; in this embedding every field is a pure function of the URL, with
no randomness source anywhere in the extractor. -/
theorem extractor_deterministic (u1 u2 : String) (h : u1 = u2) :
    createMockPerformanceData u1 = createMockPerformanceData u2
    ∧ auditSEO u1 = auditSEO u2
    ∧ auditCrawlability u1 = auditCrawlability u2
    ∧ createMockAccessibilityData = createMockAccessibilityData := by
  subst h
  exact ⟨rfl, rfl, rfl, rfl⟩

/-- C9, witnessed at a concrete URL given twice. -/
theorem extractor_deterministic_witness :
    createMockPerformanceData "https://example.com"
        = createMockPerformanceData "https://example.com"
    ∧ auditSEO "https://example.com" = auditSEO "https://example.com"
    ∧ auditCrawlability "https://example.com" = auditCrawlability "https://example.com"
    ∧ createMockAccessibilityData = createMockAccessibilityData :=
  extractor_deterministic "https://example.com" "https://example.com" rfl

/-- C10: the degraded auditor emits no recommendation for any URL: the
canned performance score is 86, 95 or 78, accessibility is 91,
crawlability is 85 or 90 (all ≥ 70), and although the default SEO
bucket scores 69 < 70, both canned SEO bundles have a present title and
a present meta description, so the SEO rules cannot fire either. -/
theorem simple_audit_recommendations_empty :
    ∀ url : String,
      (simpleAuditWebsite url).recommendations = []
      ∧ ((simpleAuditWebsite url).performance.score = 86
          ∨ (simpleAuditWebsite url).performance.score = 95
          ∨ (simpleAuditWebsite url).performance.score = 78)
      ∧ (simpleAuditWebsite url).accessibility.score = 91
      ∧ ((simpleAuditWebsite url).crawlability.score = 85
          ∨ (simpleAuditWebsite url).crawlability.score = 90)
      ∧ ((simpleAuditWebsite url).seo.score = 74
          ∨ (simpleAuditWebsite url).seo.score = 69)
      ∧ (simpleAuditWebsite url).seo.checks.title.present = true
      ∧ (simpleAuditWebsite url).seo.checks.metaDescription.present = true := by
  intro url
  have h74 : calculateSEOScore complexSeoChecks = 74 := by decide
  have h69 : calculateSEOScore defaultSeoChecks = 69 := by decide
  have h91 : createMockAccessibilityData.score = 91 := by decide
  by_cases hc : isComplexSite url = true <;>
    by_cases hs : isSimpleSite url = true <;>
    simp [simpleAuditWebsite, auditSEO, auditCrawlability, createMockPerformanceData,
      generateRecommendations, hc, hs, h74, h69, h91, complexSeoChecks,
      defaultSeoChecks] <;>
    decide
